import Mathlib

/-
Verification of the jupyter-kernel-controller reconciliation core.

The Go sources are shallowly embedded:
  * Go maps (labels/annotations) are modelled extensionally as lookup
    functions `String → Option String`; a `for k, v := range m` copy loop
    writes each key once, so its result is fully described by its lookup
    function.
  * Go pointers inside `corev1.ContainerState` are modelled as `Option Nat`
    where the `Nat` stands for the allocation address, so that structural
    equality of the model coincides with Go's `==` on the struct
    (nil == nil, and two pointers are equal exactly when they are the same
    allocation).
  * `metav1.Time` is modelled as `Nat`, `0` being the zero timestamp.
  * The resource store client is modelled as an explicit cluster state;
    store operations in a reconcile call succeed (get returns NotFound for
    an absent key, update of an absent object fails NotFound), and each
    write is recorded in a mutation log.
-/

namespace JKC

/-- Go map modelled extensionally by its lookup function. -/
abbrev GoMap := String → Option String

/-- Go strings.Contains: substring containment. -/
def strContains (s sub : String) : Bool :=
  decide (sub.toList <:+: s.toList)

structure NsName where
  ns : String
  name : String
deriving DecidableEq

/-- corev1.ContainerState: three pointer fields (waiting/running/terminated),
each pointer modelled by its allocation address. -/
structure ContainerState where
  waiting : Option Nat
  running : Option Nat
  terminated : Option Nat
deriving DecidableEq

def ContainerState.empty : ContainerState := ⟨none, none, none⟩

structure PodCondition where
  ctype : String
  cstatus : String
  reason : String
  message : String
  lastProbeTime : Nat
  lastTransitionTime : Nat
deriving DecidableEq

structure ContainerStatus where
  name : String
  state : ContainerState
deriving DecidableEq

structure PodStatus where
  phase : String
  podIP : String
  conditions : List PodCondition
  containerStatuses : List ContainerStatus
deriving DecidableEq

def PodStatus.empty : PodStatus := ⟨"", "", [], []⟩

structure EnvVarSource where
  fieldPath : String
deriving DecidableEq

structure EnvVar where
  name : String
  value : String
  valueFrom : Option EnvVarSource := none
deriving DecidableEq

structure Container where
  name : String
  image : String
  command : List String
  args : List String
  env : List EnvVar
deriving DecidableEq

structure PodSpec where
  containers : List Container
  restartPolicy : String
deriving DecidableEq

structure Pod where
  name : String
  nspace : String
  labels : GoMap
  annotations : GoMap
  ownerKernel : Option String := none
  spec : PodSpec
  status : PodStatus := PodStatus.empty

structure KernelCondition where
  ctype : String
  cstatus : String
  reason : String
  message : String
  lastProbeTime : Nat
  lastTransitionTime : Nat
deriving DecidableEq

structure KernelStatus where
  conditions : List KernelCondition
  containerState : ContainerState
  phase : String
  ip : String
deriving DecidableEq

def KernelStatus.empty : KernelStatus := ⟨[], ContainerState.empty, "", ""⟩

structure KernelTemplateSpec where
  spec : PodSpec

structure KernelSpec where
  template : KernelTemplateSpec
  idleTimeoutSeconds : Int
  cullingIntervalSeconds : Int

structure Kernel where
  name : String
  nspace : String
  labels : GoMap
  annotations : GoMap
  spec : KernelSpec
  status : KernelStatus := KernelStatus.empty

/-! Constants from internal/controller/kernel_controller.go. -/

def KernelNameLabel : String := "jupyter.org/kernel-name"
def KernelIdleLabel : String := "jupyrator.org/kernel-idle"
def DefaultMonitorContainerImage : String := "ghcr.io/weekenthralling/kernel-monitor:latest"

/-- The command the generator forces onto the kernel container. -/
def kernelCommand : List String :=
  ["/bin/bash", "-c",
   "until (echo -n > /dev/tcp/127.0.0.1/65432) 2>/dev/null; do sleep 1; done; exec /usr/local/bin/bootstrap-kernel.sh"]

/-- The appended monitor sidecar container. -/
def monitorContainer (privateKey : String) (idleTimeout cullingInterval : Int) : Container :=
  { name := "monitor"
    image := DefaultMonitorContainerImage
    command := []
    args := ["--idle-timeout", toString idleTimeout,
             "--culling-interval", toString cullingInterval,
             "--private-key", privateKey]
    env := [⟨"NAME", "", some ⟨"metadata.name"⟩⟩,
            ⟨"NAMESPACE", "", some ⟨"metadata.namespace"⟩⟩,
            ⟨"IP", "", some ⟨"status.podIP"⟩⟩] }

/-- KernelReconciler.generatePod from internal/controller/kernel_controller.go:
labels copied from the Kernel, annotations copied minus keys containing
"kubectl" or "kernel", container 0 renamed and given the rendezvous command
plus PUBLIC_KEY/RESPONSE_ADDRESS, monitor sidecar appended (with the
idle-timeout/culling-interval values set to 3600/60 when the spec value is
non-zero), restart policy Never. Go panics when the template has no
container; the empty-container case is left degenerate. -/
def generatePod (privateKey publicKey : String) (inst : Kernel) : Pod :=
  let labels : GoMap := fun k => inst.labels k
  let annotations : GoMap := fun k =>
    if strContains k "kubectl" || strContains k "kernel" then none else inst.annotations k
  let idleTimeout : Int :=
    if inst.spec.idleTimeoutSeconds ≠ 0 then 3600 else inst.spec.idleTimeoutSeconds
  let cullingInterval : Int :=
    if inst.spec.cullingIntervalSeconds ≠ 0 then 60 else inst.spec.cullingIntervalSeconds
  let containers : List Container :=
    match inst.spec.template.spec.containers with
    | [] => []
    | c :: rest =>
      ({ c with
          name := inst.name
          command := kernelCommand
          env := c.env ++ [⟨"PUBLIC_KEY", publicKey, none⟩,
                           ⟨"RESPONSE_ADDRESS", "127.0.0.1:65432", none⟩] } :: rest)
        ++ [monitorContainer privateKey idleTimeout cullingInterval]
  { name := inst.name
    nspace := inst.nspace
    labels := labels
    annotations := annotations
    spec := { containers := containers, restartPolicy := "Never" } }

/-- The container-state correlation loop of createKernelStatus: the first
container status whose name equals the Kernel's and whose state differs from
the Kernel's previously recorded state is adopted; matching entries whose
state equals the prior one are skipped (the loop continues past them). -/
def findAdoptedState (kernelName : String) (prior : ContainerState) :
    List ContainerStatus → Option ContainerState
  | [] => none
  | cs :: rest =>
    if cs.name ≠ kernelName then findAdoptedState kernelName prior rest
    else if cs.state = prior then findAdoptedState kernelName prior rest
    else some cs.state

/-- PodCondToKernelCond from internal/controller/kernel_controller.go; `now`
stands for the value of metav1.Now() during the call. -/
def PodCondToKernelCond (now : Nat) (podc : PodCondition) : KernelCondition :=
  { ctype := if 0 < podc.ctype.length then podc.ctype else ""
    cstatus := if 0 < podc.cstatus.length then podc.cstatus else ""
    message := if 0 < podc.message.length then podc.message else ""
    reason := if 0 < podc.reason.length then podc.reason else ""
    lastProbeTime := if podc.lastProbeTime ≠ 0 then podc.lastProbeTime else now
    lastTransitionTime := if podc.lastTransitionTime ≠ 0 then podc.lastTransitionTime else now }

/-- KernelReconciler.createKernelStatus from
internal/controller/kernel_controller.go: a fresh status carrying the pod's
phase and IP; when the pod has a non-empty status, the container-state
correlation result (or the freshly initialized empty state when the loop
adopts nothing) and the 1:1 mirrored conditions. -/
def createKernelStatus (kernel : Kernel) (pod : Pod) (now : Nat) : KernelStatus :=
  let status : KernelStatus :=
    { conditions := []
      containerState := ContainerState.empty
      phase := pod.status.phase
      ip := pod.status.podIP }
  if pod.status = PodStatus.empty then status
  else
    let status :=
      match findAdoptedState kernel.name kernel.status.containerState pod.status.containerStatuses with
      | some cs => { status with containerState := cs }
      | none => status
    { status with conditions := pod.status.conditions.map (PodCondToKernelCond now) }

/-!
The reconcile loop of internal/controller/kernel_controller.go, embedded as
a step function over an explicit cluster state. Store writes are recorded in
a mutation log in execution order; gets return NotFound for absent keys;
creates and deletes succeed; a status update of an absent object fails
NotFound. SetControllerReference is modelled as always succeeding (the
Kernel type is registered in the scheme).
-/

structure ObjectReference where
  kind : String
  name : String
  nspace : String
deriving DecidableEq

structure Event where
  involvedObject : ObjectReference
  etype : String
  reason : String
  message : String
deriving DecidableEq

structure ClusterState where
  events : List (NsName × Event)
  kernels : List (NsName × Kernel)
  pods : List (NsName × Pod)

def lookupObj {α : Type} (l : List (NsName × α)) (key : NsName) : Option α :=
  (l.find? (fun p => decide (p.1 = key))).map (fun p => p.2)

inductive GoError where
  | notFound
  | notRelated
deriving DecidableEq

/-- kernelNameFromInvolvedObject: resolvable only for kind "Pod", by reading
the fixed name label off the referenced pod; a store get error (NotFound) is
returned as is; a non-Pod kind or a pod lacking the label yields the
"object isn't related to a Kernel" error. -/
def kernelNameFromInvolvedObject (s : ClusterState) (object : ObjectReference) :
    Except GoError String :=
  if object.kind = "Pod" then
    match lookupObj s.pods ⟨object.nspace, object.name⟩ with
    | none => Except.error GoError.notFound
    | some pod =>
      match pod.labels KernelNameLabel with
      | some kernelName => Except.ok kernelName
      | none => Except.error GoError.notRelated
  else Except.error GoError.notRelated

/-- One store write or metrics increment performed by a reconcile call. -/
inductive Mutation where
  | deleteKernel (key : NsName)
  | cullingCountInc (nspace name : String)
  | cullingTimestampSet (nspace name : String) (t : Nat)
  | creationInc (nspace : String)
  | podCreate (key : NsName) (pod : Pod)
  | kernelEvent (key : NsName) (etype reason message : String)
  | statusUpdate (key : NsName) (status : KernelStatus)

def Mutation.isPodCreate : Mutation → Bool
  | .podCreate _ _ => true
  | _ => false

def Mutation.isStatusUpdate : Mutation → Bool
  | .statusUpdate _ _ => true
  | _ => false

/-- The zero corev1.Pod{} that foundPod keeps pointing at when the pod had
to be created (the code never refetches it after Create). -/
def Pod.emptyPod : Pod :=
  { name := ""
    nspace := ""
    labels := fun _ => none
    annotations := fun _ => none
    spec := { containers := [], restartPolicy := "" }
    status := PodStatus.empty }

/-- ctrl.SetControllerReference: the Kernel becomes the pod's owner. -/
def setControllerReference (owner : Kernel) (pod : Pod) : Pod :=
  { pod with ownerKernel := some owner.name }

/-- Replace the stored Kernel's status subresource. -/
def setKernelStatus (kernels : List (NsName × Kernel)) (key : NsName) (st : KernelStatus) :
    List (NsName × Kernel) :=
  kernels.map (fun p => if p.1 = key then (p.1, { p.2 with status := st }) else p)

/-- r.Status().Update(ctx, kernel): fails NotFound when the Kernel is gone. -/
def statusUpdateStep (s : ClusterState) (key : NsName) (st : KernelStatus) :
    ClusterState × List Mutation × Option GoError :=
  match lookupObj s.kernels key with
  | none => (s, [], some GoError.notFound)
  | some _ => ({ s with kernels := setKernelStatus s.kernels key st },
               [Mutation.statusUpdate key st], none)

structure KernelReconciler where
  privateKey : String
  publicKey : String

/-- KernelReconciler.Reconcile from internal/controller/kernel_controller.go:
event disambiguation and re-emission; kernel fetch with ignore-not-found;
label-driven idle culling (which deletes the Kernel and then falls through);
pod generation and create-if-missing with a creation-metric increment before
the create; unconditional status write-back. -/
def KernelReconciler.reconcile (r : KernelReconciler) (s : ClusterState) (req : NsName)
    (now : Nat) : ClusterState × List Mutation × Option GoError :=
  match lookupObj s.events req with
  | some event =>
    match kernelNameFromInvolvedObject s event.involvedObject with
    | Except.error e => (s, [], some e)
    | Except.ok kernelName =>
      match lookupObj s.kernels ⟨req.ns, kernelName⟩ with
      | none => (s, [], none)
      | some _ =>
        (s, [Mutation.kernelEvent ⟨req.ns, kernelName⟩ event.etype event.reason
              ("Reissued from " ++ event.involvedObject.kind.toLower ++ "/"
                ++ event.involvedObject.name ++ ": " ++ event.message)], none)
  | none =>
    match lookupObj s.kernels req with
    | none => (s, [], none)
    | some inst =>
      let instKey : NsName := ⟨inst.nspace, inst.name⟩
      let culled := inst.labels KernelIdleLabel = some "true"
      let s1 : ClusterState :=
        if culled then
          { s with kernels := s.kernels.filter (fun p => decide (p.1 ≠ instKey)) }
        else s
      let muts1 : List Mutation :=
        if culled then
          [Mutation.deleteKernel instKey,
           Mutation.cullingCountInc inst.nspace inst.name,
           Mutation.cullingTimestampSet inst.nspace inst.name now]
        else []
      let pod := setControllerReference inst (generatePod r.privateKey r.publicKey inst)
      let podKey : NsName := ⟨pod.nspace, pod.name⟩
      match lookupObj s1.pods podKey with
      | none =>
        let s2 : ClusterState := { s1 with pods := (podKey, pod) :: s1.pods }
        let muts2 := muts1 ++ [Mutation.creationInc pod.nspace, Mutation.podCreate podKey pod]
        let st := createKernelStatus inst Pod.emptyPod now
        let res := statusUpdateStep s2 instKey st
        (res.1, muts2 ++ res.2.1, res.2.2)
      | some foundPod =>
        let st := createKernelStatus inst foundPod now
        let res := statusUpdateStep s1 instKey st
        (res.1, muts1 ++ res.2.1, res.2.2)

/-! Concrete sample objects used by witnesses and counterexamples. -/

/-- A sample Kernel carrying one excluded and one ordinary annotation. -/
def kernelC5 : Kernel :=
  { name := "foo"
    nspace := "default"
    labels := fun _ => none
    annotations := fun k =>
      if k = "kubectl.kubernetes.io/last-applied" then some "x"
      else if k = "team" then some "ml" else none
    spec := { template := { spec := { containers := [], restartPolicy := "" } },
              idleTimeoutSeconds := 0, cullingIntervalSeconds := 0 } }

/-- A one-container template, as in the repository's sample manifest. -/
def sampleTemplate : KernelTemplateSpec :=
  { spec :=
    { containers := [{ name := "main", image := "img", command := [], args := [], env := [] }]
      restartPolicy := "" } }

/-- A sample Kernel with no labels of its own, used to exhibit that the
generator does not attach the fixed name label. -/
def kernelC6 : Kernel :=
  { name := "foo"
    nspace := "default"
    labels := fun _ => none
    annotations := fun _ => none
    spec := { template := sampleTemplate, idleTimeoutSeconds := 0, cullingIntervalSeconds := 0 } }

/-- A Kernel whose previously recorded container state is a running state. -/
def kernelC2 : Kernel :=
  { name := "foo"
    nspace := "default"
    labels := fun _ => none
    annotations := fun _ => none
    spec := { template := sampleTemplate, idleTimeoutSeconds := 0, cullingIntervalSeconds := 0 }
    status := { conditions := [], containerState := ⟨none, some 1, none⟩,
                phase := "Running", ip := "10.0.0.1" } }

/-- A pod with a non-empty status whose container-status list has no entry
named like the Kernel. -/
def podC2 : Pod :=
  { name := "foo"
    nspace := "default"
    labels := fun _ => none
    annotations := fun _ => none
    spec := { containers := [], restartPolicy := "" }
    status := { phase := "Running", podIP := "10.0.0.1", conditions := [], containerStatuses := [] } }

/-- podC2 with a terminated container status entry named like the Kernel. -/
def podC2t : Pod :=
  { podC2 with status :=
    { phase := "Running"
      podIP := "10.0.0.1"
      conditions := []
      containerStatuses := [⟨"foo", ⟨none, none, some 2⟩⟩] } }

/-- A pending pod with one condition whose probe time is the zero timestamp. -/
def podC3 : Pod :=
  { podC2 with status :=
    { phase := "Pending"
      podIP := ""
      conditions := [⟨"PodScheduled", "False", "Unschedulable", "0/1 nodes are available", 0, 50⟩]
      containerStatuses := [] } }

def reconcilerC : KernelReconciler := ⟨"pk", "pb"⟩

/-- A Kernel carrying the idle marker label. -/
def kernelC1 : Kernel :=
  { name := "foo"
    nspace := "default"
    labels := fun k => if k = KernelIdleLabel then some "true" else none
    annotations := fun _ => none
    spec := { template := sampleTemplate, idleTimeoutSeconds := 0, cullingIntervalSeconds := 0 }
    status := KernelStatus.empty }

/-- A cluster holding only the idle Kernel: no events, no pods. -/
def stateC1 : ClusterState :=
  { events := [], kernels := [(⟨"default", "foo"⟩, kernelC1)], pods := [] }

/-- An ordinary (non-idle) Kernel. -/
def kernelC4 : Kernel :=
  { name := "bar"
    nspace := "default"
    labels := fun _ => none
    annotations := fun _ => none
    spec := { template := sampleTemplate, idleTimeoutSeconds := 0, cullingIntervalSeconds := 0 }
    status := KernelStatus.empty }

/-- A cluster holding only kernelC4. -/
def stateC4 : ClusterState :=
  { events := [], kernels := [(⟨"default", "bar"⟩, kernelC4)], pods := [] }

/-- The cluster after the first reconcile of kernelC4. -/
def stateC4after : ClusterState :=
  (reconcilerC.reconcile stateC4 ⟨"default", "bar"⟩ 5).1

/-- A pod carrying the fixed name label pointing at Kernel "foo". -/
def podC7 : Pod :=
  { name := "p1"
    nspace := "default"
    labels := fun k => if k = KernelNameLabel then some "foo" else none
    annotations := fun _ => none
    spec := { containers := [], restartPolicy := "" }
    status := PodStatus.empty }

/-- An event whose InvolvedObject references podC7. -/
def eventC7 : Event :=
  { involvedObject := ⟨"Pod", "p1", "default"⟩
    etype := "Warning"
    reason := "Failed"
    message := "boom" }

/-- A cluster holding eventC7, Kernel "foo" and podC7. -/
def stateC7 : ClusterState :=
  { events := [(⟨"default", "ev1"⟩, eventC7)]
    kernels := [(⟨"default", "foo"⟩, { kernelC1 with labels := fun _ => none })]
    pods := [(⟨"default", "p1"⟩, podC7)] }

/-!
Service generation and create-or-update, from controller/kernel_controller.go
(v1alpha1 variant) and internal/reconcilehelper/util.go. Go maps that the
service code iterates over (labels/annotations/selector) are modelled as
association lists; reflect.DeepEqual on maps is observational key/value
equality, on port slices structural list equality.
-/

abbrev AList := List (String × String)

def alookup (m : AList) (k : String) : Option String :=
  (m.find? (fun p => p.1 == k)).map (fun p => p.2)

/-- Go map indexing m[k]: zero value "" when the key is absent. -/
def goIndex (m : AList) (k : String) : String := (alookup m k).getD ""

/-- reflect.DeepEqual on two string maps: same key/value associations. -/
def mapEquiv (a b : AList) : Bool :=
  a.all (fun kv => alookup b kv.1 == some kv.2) && b.all (fun kv => alookup a kv.1 == some kv.2)

structure ServicePort where
  name : String
  port : Int
  protocol : String
  targetPort : Int
deriving DecidableEq

structure Service where
  name : String
  nspace : String
  labels : AList
  annotations : AList
  svcType : String
  selector : AList
  ports : List ServicePort
  clusterIP : String
deriving DecidableEq

/-- The digit part of an Atoi input: everything after an optional sign. -/
def atoiDigits (s : String) : List Char :=
  let cs := s.toList
  if cs.head? = some '-' ∨ cs.head? = some '+' then cs.drop 1 else cs

/-- strconv.Atoi with its error discarded (`port, _ := strconv.Atoi(v)`): a
syntactically invalid decimal integer yields 0 (the ErrSyntax case), a
syntactically valid one is clamped into the signed 64-bit range (on ErrRange
Atoi returns the clamped extremum, not 0). -/
def goAtoi (s : String) : Int :=
  let sign : Int := if s.toList.head? = some '-' then -1 else 1
  let ds := atoiDigits s
  if ds = [] ∨ ¬ ds.all Char.isDigit then 0
  else
    let n : Int := Int.ofNat (ds.foldl (fun a c => a * 10 + (c.toNat - 48)) 0)
    let v := sign * n
    if v > 9223372036854775807 then 9223372036854775807
    else if v < -9223372036854775808 then -9223372036854775808
    else v

/-- Whether strconv.Atoi parses s without a syntax error. -/
def atoiSyntaxOk (s : String) : Bool :=
  !decide (atoiDigits s = []) && (atoiDigits s).all Char.isDigit

/-- Go int32(x) conversion: two's-complement truncation to 32 bits. -/
def toInt32 (v : Int) : Int :=
  let r := v % 4294967296
  if r < 2147483648 then r else r - 4294967296

/-- The addServicePort closure of generateService: one port entry per env
entry of container 0 whose name matches, numbered from the parsed value. -/
def addServicePort (env : List EnvVar) (envName portName : String) : List ServicePort :=
  env.filterMap (fun e =>
    if e.name = envName then
      some { name := portName, port := toInt32 (goAtoi e.value),
             protocol := "TCP", targetPort := toInt32 (goAtoi e.value) }
    else none)

/-- Container 0's env of a pod (Go panics when there is no container; the
empty case is left degenerate). -/
def container0Env (pod : Pod) : List EnvVar :=
  match pod.spec.containers with
  | [] => []
  | c :: _ => c.env

/-- KernelReconciler.generateService from controller/kernel_controller.go
(v1alpha1): a ClusterIP service selecting the pod's name label, one port per
recognized kernel socket env var found on container 0. -/
def generateService (inst : Kernel) (pod : Pod) : Service :=
  let env := container0Env pod
  { name := inst.name
    nspace := inst.nspace
    labels := []
    annotations := []
    svcType := "ClusterIP"
    selector := [("Kernel-name", inst.name)]
    ports := addServicePort env "SHELL_PORT" "shell-port"
          ++ addServicePort env "IOPUB_PORT" "iopub-port"
          ++ addServicePort env "STDIN_PORT" "stdin-port"
          ++ addServicePort env "HB_PORT" "hb-port"
          ++ addServicePort env "CONTROL_PORT" "control-port"
    clusterIP := "" }

/-- CopyServiceFields from internal/reconcilehelper/util.go: merge labels,
annotations, selector and ports into the stored Service, reporting whether a
watched difference was detected; clusterIP and all other fields are left
untouched. -/
def CopyServiceFields (fromSvc toSvc : Service) : Service × Bool :=
  let ru1 := toSvc.labels.any (fun kv => !(goIndex fromSvc.labels kv.1 == kv.2))
  let ru2 := toSvc.annotations.any (fun kv => !(goIndex fromSvc.annotations kv.1 == kv.2))
  let ru3 := !mapEquiv toSvc.selector fromSvc.selector
  let ru4 := !(toSvc.ports == fromSvc.ports)
  ({ toSvc with labels := fromSvc.labels, annotations := fromSvc.annotations,
                selector := fromSvc.selector, ports := fromSvc.ports },
   ru1 || ru2 || ru3 || ru4)

inductive SvcMutation where
  | create (svc : Service)
  | update (svc : Service)
deriving DecidableEq

/-- The service create-or-update step of the v1alpha1 Reconcile: create when
missing; otherwise update exactly when CopyServiceFields detected a change. -/
def serviceReconcileStep (existing : Option Service) (desired : Service) : List SvcMutation :=
  match existing with
  | none => [SvcMutation.create desired]
  | some found =>
    let res := CopyServiceFields desired found
    if res.2 then [SvcMutation.update res.1] else []

/-- A stored Service with a cluster-assigned IP. -/
def svcFound : Service :=
  { name := "foo", nspace := "default", labels := [("a", "1")], annotations := []
    svcType := "ClusterIP", selector := [("Kernel-name", "foo")], ports := []
    clusterIP := "10.96.0.7" }

/-- The freshly generated counterpart with one changed label. -/
def svcDesired : Service :=
  { name := "foo", nspace := "default", labels := [("a", "2")], annotations := []
    svcType := "ClusterIP", selector := [("Kernel-name", "foo")], ports := []
    clusterIP := "" }

/-- A pod whose SHELL_PORT value is a decimal integer beyond int64 range. -/
def podC10 : Pod :=
  { name := "foo"
    nspace := "default"
    labels := fun _ => none
    annotations := fun _ => none
    spec := { containers := [{ name := "main", image := "img", command := [], args := []
                               env := [⟨"SHELL_PORT", "9223372036854775808", none⟩] }]
              restartPolicy := "" }
    status := PodStatus.empty }

/-- A pod whose SHELL_PORT value is not a syntactically valid integer. -/
def podC10s : Pod :=
  { podC10 with spec :=
    { containers := [{ name := "main", image := "img", command := [], args := []
                       env := [⟨"SHELL_PORT", "abc", none⟩] }]
      restartPolicy := "" } }

end JKC

namespace JKC

/-- C5: every Kernel annotation whose key contains "kubectl" or "kernel" is
absent from the generated Pod, and every other Kernel annotation appears on
the Pod unchanged. -/
theorem generatePod_annotation_filter (privateKey publicKey : String) (inst : Kernel)
    (k : String) :
    ((strContains k "kubectl" = true ∨ strContains k "kernel" = true) →
       (generatePod privateKey publicKey inst).annotations k = none) ∧
    (strContains k "kubectl" = false → strContains k "kernel" = false →
       (generatePod privateKey publicKey inst).annotations k = inst.annotations k) := by
  constructor
  · intro h
    rcases h with h | h <;> simp [generatePod, h]
  · intro h1 h2
    simp [generatePod, h1, h2]

/-- C5 witness: concrete evaluation of the annotation filter. -/
theorem generatePod_annotation_filter_witness :
    (generatePod "" "" kernelC5).annotations "kubectl.kubernetes.io/last-applied" = none ∧
    (generatePod "" "" kernelC5).annotations "team" = some "ml" := by
  refine ⟨?_, ?_⟩
  · exact (generatePod_annotation_filter "" "" kernelC5 _).1 (Or.inl (by decide))
  · have h := (generatePod_annotation_filter "" "" kernelC5 "team").2 (by decide) (by decide)
    rw [h]
    decide

/-- C6: the internal generator copies only the Kernel's own labels onto the
Pod; it never adds the fixed name label "jupyter.org/kernel-name", although
event-to-kernel resolution in the same file requires pods to carry it. For a
Kernel without labels the generated Pod lacks the name label entirely, and in
general the Pod's labels coincide with the Kernel's. -/
theorem generatePod_missing_name_label :
    (generatePod "priv" "pub" kernelC6).labels KernelNameLabel = none ∧
    ∀ (privateKey publicKey : String) (inst : Kernel) (k : String),
      (generatePod privateKey publicKey inst).labels k = inst.labels k := by
  exact ⟨rfl, fun _ _ _ _ => rfl⟩

/-- C9: the monitor sidecar is the last container of the generated pod; its
idle-timeout argument is "3600" exactly when spec.idleTimeoutSeconds is
non-zero and otherwise the spec value "0", and its culling-interval argument
is "60" exactly when spec.cullingIntervalSeconds is non-zero and otherwise
the spec value "0". -/
theorem generatePod_monitor_defaulting (privateKey publicKey : String) (inst : Kernel)
    (c : Container) (rest : List Container)
    (h : inst.spec.template.spec.containers = c :: rest) :
    ∃ mc, ((generatePod privateKey publicKey inst).spec.containers).getLast? = some mc ∧
      mc.name = "monitor" ∧ mc.image = DefaultMonitorContainerImage ∧
      (inst.spec.idleTimeoutSeconds ≠ 0 → mc.args.get? 1 = some "3600") ∧
      (inst.spec.idleTimeoutSeconds = 0 → mc.args.get? 1 = some "0") ∧
      (inst.spec.cullingIntervalSeconds ≠ 0 → mc.args.get? 3 = some "60") ∧
      (inst.spec.cullingIntervalSeconds = 0 → mc.args.get? 3 = some "0") := by
  refine ⟨monitorContainer privateKey
      (if inst.spec.idleTimeoutSeconds ≠ 0 then 3600 else inst.spec.idleTimeoutSeconds)
      (if inst.spec.cullingIntervalSeconds ≠ 0 then 60 else inst.spec.cullingIntervalSeconds),
    ?_, rfl, rfl, ?_, ?_, ?_, ?_⟩
  · simp only [generatePod, h]
    exact List.getLast?_concat _
  · intro hne
    simp only [monitorContainer, if_pos hne]
    rfl
  · intro hz
    simp only [monitorContainer, hz]
    rfl
  · intro hne
    simp only [monitorContainer, if_pos hne]
    rfl
  · intro hz
    simp only [monitorContainer, hz]
    rfl

/-- C9 witness: a Kernel with non-zero knobs gets the 3600/60 defaults, at a
concrete input. -/
theorem generatePod_monitor_defaulting_witness :
    ∃ mc, ((generatePod "pk" "pb"
      { name := "foo", nspace := "default",
        labels := fun _ => none, annotations := fun _ => none,
        spec := { template := sampleTemplate,
                  idleTimeoutSeconds := 1800, cullingIntervalSeconds := 30 } }).spec.containers).getLast?
        = some mc ∧
      mc.name = "monitor" ∧ mc.image = DefaultMonitorContainerImage ∧
      (((1800 : Int) ≠ 0) → mc.args.get? 1 = some "3600") ∧
      (((1800 : Int) = 0) → mc.args.get? 1 = some "0") ∧
      (((30 : Int) ≠ 0) → mc.args.get? 3 = some "60") ∧
      (((30 : Int) = 0) → mc.args.get? 3 = some "0") :=
  generatePod_monitor_defaulting "pk" "pb" _ _ [] rfl

/-! Status projection: C2 and C3. -/

lemma findAdoptedState_eq_none (kernelName : String) (prior : ContainerState)
    (l : List ContainerStatus)
    (h : ∀ x ∈ l, x.name = kernelName → x.state = prior) :
    findAdoptedState kernelName prior l = none := by
  induction l with
  | nil => rfl
  | cons cs rest ih =>
    have ih2 := ih (fun x hx hxn => h x (List.mem_cons_of_mem _ hx) hxn)
    by_cases hn : cs.name = kernelName
    · have hs : cs.state = prior := h cs (List.mem_cons_self _ _) hn
      simp [findAdoptedState, hn, hs, ih2]
    · simp [findAdoptedState, hn, ih2]

lemma findAdoptedState_eq_first (kernelName : String) (prior : ContainerState)
    (pre post : List ContainerStatus) (cs : ContainerStatus)
    (hpre : ∀ x ∈ pre, x.name = kernelName → x.state = prior)
    (hn : cs.name = kernelName) (hs : cs.state ≠ prior) :
    findAdoptedState kernelName prior (pre ++ cs :: post) = some cs.state := by
  induction pre with
  | nil => simp [findAdoptedState, hn, hs]
  | cons p rest ih =>
    have ih2 := ih (fun x hx hxn => hpre x (List.mem_cons_of_mem _ hx) hxn)
    by_cases hpn : p.name = kernelName
    · have hps : p.state = prior := hpre p (List.mem_cons_self _ _) hpn
      simp [findAdoptedState, hpn, hps, ih2]
    · simp [findAdoptedState, hpn, ih2]

/-- C2 (amended): for a pod with non-empty status, the projected
containerState is the state of the first container status entry whose name
matches the Kernel's and whose state differs from the previously recorded
one; when no matching entry differs (in particular when no matching entry
exists at all), the projected containerState is the freshly initialized
empty state — not the previously recorded value. -/
theorem createKernelStatus_container_state (kernel : Kernel) (pod : Pod) (now : Nat)
    (h : pod.status ≠ PodStatus.empty) :
    (∀ pre cs post,
        pod.status.containerStatuses = pre ++ cs :: post →
        (∀ x ∈ pre, x.name = kernel.name → x.state = kernel.status.containerState) →
        cs.name = kernel.name → cs.state ≠ kernel.status.containerState →
        (createKernelStatus kernel pod now).containerState = cs.state) ∧
    ((∀ x ∈ pod.status.containerStatuses,
        x.name = kernel.name → x.state = kernel.status.containerState) →
      (createKernelStatus kernel pod now).containerState = ContainerState.empty) := by
  constructor
  · intro pre cs post hsplit hpre hn hs
    have hfind := findAdoptedState_eq_first kernel.name kernel.status.containerState
      pre post cs hpre hn hs
    simp [createKernelStatus, h, hsplit, hfind]
  · intro hall
    have hfind := findAdoptedState_eq_none kernel.name kernel.status.containerState
      pod.status.containerStatuses hall
    simp [createKernelStatus, h, hfind]

/-- C2 counterexample: with no matching container-status entry, the projected
containerState is NOT the Kernel's previously recorded containerState — the
prior value is replaced by the empty state. -/
theorem createKernelStatus_container_state_counterexample :
    (createKernelStatus kernelC2 podC2 7).containerState ≠ kernelC2.status.containerState ∧
    (createKernelStatus kernelC2 podC2 7).containerState = ContainerState.empty := by
  constructor
  · decide
  · decide

/-- C2 witness: the amended claim applied at a concrete pod carrying a
matching, differing container status (it is adopted), and at podC2 (empty
state results). -/
theorem createKernelStatus_container_state_witness :
    (createKernelStatus kernelC2 podC2t 7).containerState = ⟨none, none, some 2⟩ ∧
    (createKernelStatus kernelC2 podC2 7).containerState = ContainerState.empty := by
  constructor
  · exact (createKernelStatus_container_state kernelC2 podC2t 7 (by decide)).1
      [] ⟨"foo", ⟨none, none, some 2⟩⟩ [] rfl (by intro x hx; cases hx) rfl (by decide)
  · exact (createKernelStatus_container_state kernelC2 podC2 7 (by decide)).2
      (by intro x hx; cases hx)

lemma string_eq_empty_of_length_eq_zero (s : String) (h : s.length = 0) : s = "" := by
  cases s with
  | mk data =>
    cases data with
    | nil => rfl
    | cons c cs => simp [String.length] at h

lemma condGuard_eq (s : String) : (if 0 < s.length then s else "") = s := by
  by_cases h : 0 < s.length
  · simp [h]
  · have h0 : s.length = 0 := Nat.eq_zero_of_not_pos h
    simp [h, string_eq_empty_of_length_eq_zero s h0]

/-- C3: for a pod with a non-empty status, the projected status mirrors every
pod condition one to one (same count; type, status, reason and message
verbatim); a zero probe/transition timestamp is replaced by the call's
"now" — non-zero and no earlier than the invocation time — while a non-zero
timestamp is propagated unchanged. -/
theorem createKernelStatus_conditions (kernel : Kernel) (pod : Pod) (now t0 : Nat)
    (h : pod.status ≠ PodStatus.empty) (hpos : 0 < now) (ht0 : t0 ≤ now) :
    (createKernelStatus kernel pod now).conditions.length = pod.status.conditions.length ∧
    ∀ i src, pod.status.conditions.get? i = some src →
      ∃ dst, (createKernelStatus kernel pod now).conditions.get? i = some dst ∧
        dst.ctype = src.ctype ∧ dst.cstatus = src.cstatus ∧
        dst.reason = src.reason ∧ dst.message = src.message ∧
        (src.lastProbeTime = 0 → 0 < dst.lastProbeTime ∧ t0 ≤ dst.lastProbeTime) ∧
        (src.lastProbeTime ≠ 0 → dst.lastProbeTime = src.lastProbeTime) ∧
        (src.lastTransitionTime = 0 → 0 < dst.lastTransitionTime ∧ t0 ≤ dst.lastTransitionTime) ∧
        (src.lastTransitionTime ≠ 0 → dst.lastTransitionTime = src.lastTransitionTime) := by
  have hconds : (createKernelStatus kernel pod now).conditions
      = pod.status.conditions.map (PodCondToKernelCond now) := by
    simp only [createKernelStatus, if_neg h]
  constructor
  · rw [hconds]; simp
  · intro i src hsrc
    refine ⟨PodCondToKernelCond now src, ?_, ?_, ?_, ?_, ?_, ?_, ?_, ?_, ?_⟩
    · rw [hconds, List.get?_map, hsrc]
      rfl
    · exact condGuard_eq _
    · exact condGuard_eq _
    · exact condGuard_eq _
    · exact condGuard_eq _
    · intro hz
      constructor <;> simp [PodCondToKernelCond, hz, hpos, ht0]
    · intro hnz
      simp [PodCondToKernelCond, hnz]
    · intro hz
      constructor <;> simp [PodCondToKernelCond, hz, hpos, ht0]
    · intro hnz
      simp [PodCondToKernelCond, hnz]

/-- C3 witness: mirroring evaluated at a concrete pod with one condition
carrying a zero probe timestamp and a dated transition timestamp. -/
theorem createKernelStatus_conditions_witness :
    ((createKernelStatus kernelC2 podC3 90).conditions.length = 1) ∧
    (((createKernelStatus kernelC2 podC3 90).conditions.get? 0).map
        (fun c => (c.ctype, c.lastProbeTime, c.lastTransitionTime))
      = some ("PodScheduled", 90, 50)) := by
  have h := createKernelStatus_conditions kernelC2 podC3 90 10 (by decide) (by decide) (by decide)
  exact ⟨h.1, by decide⟩

/-! Reconcile-level lemmas and claims C1, C4, C7. -/

lemma lookupObj_cons_of_pos {α : Type} (l : List (NsName × α)) (p : NsName × α)
    (key : NsName) (h : p.1 = key) : lookupObj (p :: l) key = some p.2 := by
  unfold lookupObj
  rw [List.find?_cons_of_pos _ (by simp [h])]
  rfl

lemma lookupObj_cons_of_neg {α : Type} (l : List (NsName × α)) (p : NsName × α)
    (key : NsName) (h : ¬ p.1 = key) : lookupObj (p :: l) key = lookupObj l key := by
  unfold lookupObj
  rw [List.find?_cons_of_neg _ (by simp [h])]

lemma lookupObj_filter_ne {α : Type} (l : List (NsName × α)) (key : NsName) :
    lookupObj (l.filter (fun p => !decide (p.1 = key))) key = none := by
  induction l with
  | nil => rfl
  | cons p rest ih =>
    by_cases h : p.1 = key
    · rw [List.filter_cons_of_neg (by simp [h])]
      exact ih
    · rw [List.filter_cons_of_pos (by simp [h]), lookupObj_cons_of_neg _ _ _ h]
      exact ih

lemma setKernelStatus_cons (p : NsName × Kernel) (rest : List (NsName × Kernel))
    (key : NsName) (st : KernelStatus) :
    setKernelStatus (p :: rest) key st =
      (if p.1 = key then (p.1, { p.2 with status := st }) else p) :: setKernelStatus rest key st :=
  rfl

lemma lookupObj_setKernelStatus (l : List (NsName × Kernel)) (key : NsName)
    (st : KernelStatus) (k : Kernel) (h : lookupObj l key = some k) :
    lookupObj (setKernelStatus l key st) key = some { k with status := st } := by
  induction l with
  | nil => simp [lookupObj] at h
  | cons p rest ih =>
    by_cases hp : p.1 = key
    · rw [lookupObj_cons_of_pos rest p key hp] at h
      have hk : p.2 = k := Option.some.inj h
      rw [setKernelStatus_cons, if_pos hp,
        lookupObj_cons_of_pos (setKernelStatus rest key st) (p.1, { p.2 with status := st }) key hp]
      rw [hk]
    · rw [lookupObj_cons_of_neg rest p key hp] at h
      rw [setKernelStatus_cons, if_neg hp,
        lookupObj_cons_of_neg (setKernelStatus rest key st) p key hp]
      exact ih h

/-- C1 (amended): for a Kernel carrying the idle marker label, Reconcile
deletes the Kernel, increments the culling counter and sets the
culling-timestamp gauge for that namespace/name — but then CONTINUES with
the ordinary reconcile: when no pod exists it increments the creation metric
and creates the pod, and the final status write fails NotFound because the
Kernel was just deleted. -/
theorem reconcile_culling_continues (r : KernelReconciler) (s : ClusterState)
    (req : NsName) (now : Nat) (k : Kernel)
    (h1 : lookupObj s.events req = none)
    (h2 : lookupObj s.kernels req = some k)
    (h3 : k.labels KernelIdleLabel = some "true")
    (h4 : req = ⟨k.nspace, k.name⟩)
    (h5 : lookupObj s.pods ⟨k.nspace, k.name⟩ = none) :
    (r.reconcile s req now).2.1 =
      [Mutation.deleteKernel ⟨k.nspace, k.name⟩,
       Mutation.cullingCountInc k.nspace k.name,
       Mutation.cullingTimestampSet k.nspace k.name now,
       Mutation.creationInc k.nspace,
       Mutation.podCreate ⟨k.nspace, k.name⟩
         (setControllerReference k (generatePod r.privateKey r.publicKey k))] ∧
    (r.reconcile s req now).2.2 = some GoError.notFound := by
  subst h4
  simp [KernelReconciler.reconcile, h1, h2, h3, h5, setControllerReference, generatePod,
    statusUpdateStep, lookupObj_filter_ne]

/-- C1 counterexample to the claim as stated: reconciling the idle Kernel in
stateC1 performs a pod creation in the very same call (the culling path does
not terminate the reconcile). -/
theorem reconcile_culling_counterexample :
    ((reconcilerC.reconcile stateC1 ⟨"default", "foo"⟩ 100).2.1.any Mutation.isPodCreate)
      = true := by
  decide

/-- C1 witness for the amended claim at the concrete idle Kernel. -/
theorem reconcile_culling_continues_witness :
    (reconcilerC.reconcile stateC1 ⟨"default", "foo"⟩ 100).2.1 =
      [Mutation.deleteKernel ⟨"default", "foo"⟩,
       Mutation.cullingCountInc "default" "foo",
       Mutation.cullingTimestampSet "default" "foo" 100,
       Mutation.creationInc "default",
       Mutation.podCreate ⟨"default", "foo"⟩
         (setControllerReference kernelC1 (generatePod "pk" "pb" kernelC1))] ∧
    (reconcilerC.reconcile stateC1 ⟨"default", "foo"⟩ 100).2.2 = some GoError.notFound :=
  reconcile_culling_continues reconcilerC stateC1 ⟨"default", "foo"⟩ 100 kernelC1
    rfl rfl (by decide) rfl rfl

/-- C7: event-to-kernel resolution succeeds exactly for a Pod-kind involved
object referencing an existing pod carrying the fixed name label, returning
that label's value; a non-Pod kind, or a pod lacking the label, yields the
"object isn't related to a Kernel" error; and a reconcile that resolves an
event re-emits exactly one event on the Kernel and terminates without
touching the cluster state (no fall-through to Kernel logic). -/
theorem kernelNameFromInvolvedObject_spec (s : ClusterState) (object : ObjectReference) :
    (∀ v, kernelNameFromInvolvedObject s object = Except.ok v ↔
       (object.kind = "Pod" ∧ ∃ p, lookupObj s.pods ⟨object.nspace, object.name⟩ = some p ∧
         p.labels KernelNameLabel = some v)) ∧
    (object.kind ≠ "Pod" →
       kernelNameFromInvolvedObject s object = Except.error GoError.notRelated) ∧
    (∀ p, object.kind = "Pod" →
       lookupObj s.pods ⟨object.nspace, object.name⟩ = some p →
       p.labels KernelNameLabel = none →
       kernelNameFromInvolvedObject s object = Except.error GoError.notRelated) ∧
    (∀ (r : KernelReconciler) (req : NsName) (now : Nat) (event : Event)
        (kernelName : String) (k : Kernel),
       lookupObj s.events req = some event →
       kernelNameFromInvolvedObject s event.involvedObject = Except.ok kernelName →
       lookupObj s.kernels ⟨req.ns, kernelName⟩ = some k →
       (r.reconcile s req now).2.1 =
         [Mutation.kernelEvent ⟨req.ns, kernelName⟩ event.etype event.reason
           ("Reissued from " ++ event.involvedObject.kind.toLower ++ "/"
             ++ event.involvedObject.name ++ ": " ++ event.message)] ∧
       (r.reconcile s req now).1 = s ∧
       (r.reconcile s req now).2.2 = none) := by
  refine ⟨?_, ?_, ?_, ?_⟩
  · intro v
    by_cases hk : object.kind = "Pod"
    · cases hp : lookupObj s.pods ⟨object.nspace, object.name⟩ with
      | none => simp [kernelNameFromInvolvedObject, hk, hp]
      | some p =>
        cases hl : p.labels KernelNameLabel with
        | none => simp [kernelNameFromInvolvedObject, hk, hp, hl]
        | some w =>
          have hdef : kernelNameFromInvolvedObject s object = Except.ok w := by
            simp [kernelNameFromInvolvedObject, hk, hp, hl]
          rw [hdef]
          constructor
          · intro h
            have hwv : w = v := Except.ok.inj h
            exact ⟨hk, p, rfl, by rw [hl, hwv]⟩
          · rintro ⟨-, q, hq, hqv⟩
            have hpq : p = q := Option.some.inj hq
            rw [← hpq, hl] at hqv
            exact congrArg Except.ok (Option.some.inj hqv)
    · simp [kernelNameFromInvolvedObject, hk]
  · intro hk
    simp [kernelNameFromInvolvedObject, hk]
  · intro p hk hp hl
    simp [kernelNameFromInvolvedObject, hk, hp, hl]
  · intro r req now event kernelName k hev hres hker
    refine ⟨?_, ?_, ?_⟩ <;>
      simp [KernelReconciler.reconcile, hev, hres, hker]

/-- C7 witness: resolution, re-emission and the error case evaluated on the
concrete cluster stateC7. -/
theorem kernelNameFromInvolvedObject_spec_witness :
    kernelNameFromInvolvedObject stateC7 eventC7.involvedObject = Except.ok "foo" ∧
    (reconcilerC.reconcile stateC7 ⟨"default", "ev1"⟩ 3).2.1 =
      [Mutation.kernelEvent ⟨"default", "foo"⟩ eventC7.etype eventC7.reason
        ("Reissued from " ++ eventC7.involvedObject.kind.toLower ++ "/"
          ++ eventC7.involvedObject.name ++ ": " ++ eventC7.message)] ∧
    kernelNameFromInvolvedObject stateC7 ⟨"Service", "p1", "default"⟩
      = Except.error GoError.notRelated := by
  refine ⟨?_, ?_, ?_⟩
  · exact ((kernelNameFromInvolvedObject_spec stateC7 eventC7.involvedObject).1 "foo").2
      ⟨rfl, podC7, rfl, by decide⟩
  · have h := (kernelNameFromInvolvedObject_spec stateC7 eventC7.involvedObject).2.2.2
      reconcilerC ⟨"default", "ev1"⟩ 3 eventC7 "foo" { kernelC1 with labels := fun _ => none }
      rfl (((kernelNameFromInvolvedObject_spec stateC7 eventC7.involvedObject).1 "foo").2
        ⟨rfl, podC7, rfl, by decide⟩) rfl
    exact h.1
  · exact (kernelNameFromInvolvedObject_spec stateC7 ⟨"Service", "p1", "default"⟩).2.1
      (by decide)

/-- Helper: a full reconcile of a non-idle Kernel whose pod already exists
performs exactly one mutation, the status write. -/
lemma reconcile_pod_exists (r : KernelReconciler) (s : ClusterState) (req : NsName)
    (now : Nat) (k : Kernel) (p : Pod)
    (h1 : lookupObj s.events req = none)
    (h2 : lookupObj s.kernels req = some k)
    (h3 : ¬ k.labels KernelIdleLabel = some "true")
    (h4 : req = ⟨k.nspace, k.name⟩)
    (h5 : lookupObj s.pods ⟨k.nspace, k.name⟩ = some p) :
    r.reconcile s req now =
      ({ s with kernels := setKernelStatus s.kernels req (createKernelStatus k p now) },
       [Mutation.statusUpdate req (createKernelStatus k p now)], none) := by
  subst h4
  simp [KernelReconciler.reconcile, h1, h2, h3, h5, statusUpdateStep, setControllerReference,
    generatePod]

/-- C4 (amended): after a reconcile that created the Kernel's pod, a second
reconcile with no cluster change creates no pod and leaves the pod store
untouched (pods are created once and never mutated in place), but it still
performs one store write: the unconditional status-subresource update. -/
theorem reconcile_second_call_status_only (r : KernelReconciler) (s : ClusterState)
    (req : NsName) (now now2 : Nat) (k : Kernel)
    (h1 : lookupObj s.events req = none)
    (h2 : lookupObj s.kernels req = some k)
    (h3 : ¬ k.labels KernelIdleLabel = some "true")
    (h4 : req = ⟨k.nspace, k.name⟩)
    (h5 : lookupObj s.pods ⟨k.nspace, k.name⟩ = none) :
    ((r.reconcile (r.reconcile s req now).1 req now2).2.1.any Mutation.isPodCreate = false) ∧
    ((r.reconcile (r.reconcile s req now).1 req now2).1.pods
       = (r.reconcile s req now).1.pods) ∧
    (∃ st, (r.reconcile (r.reconcile s req now).1 req now2).2.1
       = [Mutation.statusUpdate req st]) := by
  subst h4
  set key : NsName := ⟨k.nspace, k.name⟩ with hkey
  set pod0 : Pod := setControllerReference k (generatePod r.privateKey r.publicKey k) with hpod0
  set st0 : KernelStatus := createKernelStatus k Pod.emptyPod now with hst0
  have hfirst : (r.reconcile s key now).1 =
      { events := s.events
        kernels := setKernelStatus s.kernels key st0
        pods := (key, pod0) :: s.pods } := by
    simp [KernelReconciler.reconcile, h1, h2, h3, h5, statusUpdateStep, hpod0, hst0,
      setControllerReference, generatePod]
  rw [hfirst]
  have hsecond := reconcile_pod_exists r
    { events := s.events
      kernels := setKernelStatus s.kernels key st0
      pods := (key, pod0) :: s.pods } key now2 { k with status := st0 } pod0
    h1 (lookupObj_setKernelStatus s.kernels key st0 k h2) h3 rfl
    (lookupObj_cons_of_pos s.pods (key, pod0) key rfl)
  rw [hsecond]
  exact ⟨rfl, rfl, ⟨createKernelStatus { k with status := st0 } pod0 now2, rfl⟩⟩

/-- C4 counterexample to the claim as stated: the second reconcile of the
unchanged cluster still performs a store mutation — the status update. -/
theorem reconcile_idempotence_counterexample :
    ((reconcilerC.reconcile stateC4after ⟨"default", "bar"⟩ 6).2.1.any Mutation.isStatusUpdate)
      = true := by
  decide

/-- C4 witness: the amended claim at the concrete Kernel kernelC4. -/
theorem reconcile_second_call_status_only_witness :
    ((reconcilerC.reconcile (reconcilerC.reconcile stateC4 ⟨"default", "bar"⟩ 5).1
        ⟨"default", "bar"⟩ 6).2.1.any Mutation.isPodCreate = false) ∧
    ((reconcilerC.reconcile (reconcilerC.reconcile stateC4 ⟨"default", "bar"⟩ 5).1
        ⟨"default", "bar"⟩ 6).1.pods
      = (reconcilerC.reconcile stateC4 ⟨"default", "bar"⟩ 5).1.pods) ∧
    (∃ st, (reconcilerC.reconcile (reconcilerC.reconcile stateC4 ⟨"default", "bar"⟩ 5).1
        ⟨"default", "bar"⟩ 6).2.1 = [Mutation.statusUpdate ⟨"default", "bar"⟩ st]) :=
  reconcile_second_call_status_only reconcilerC stateC4 ⟨"default", "bar"⟩ 5 6 kernelC4
    rfl rfl (by decide) rfl rfl

/-! Service claims C8 and C10. -/

lemma mapEquiv_false_of_goIndex (a b : AList) (kv : String × String)
    (hmem : kv ∈ b) (hne : goIndex a kv.1 ≠ kv.2) : mapEquiv a b = false := by
  cases h : mapEquiv a b
  · rfl
  · exfalso
    simp only [mapEquiv, Bool.and_eq_true] at h
    have hkv := List.all_eq_true.mp h.2 kv hmem
    have hl : alookup a kv.1 = some kv.2 := by
      exact beq_iff_eq.mp (by simpa using hkv)
    exact hne (by simp [goIndex, hl])

lemma mapEquiv_comm (a b : AList) : mapEquiv a b = mapEquiv b a := by
  unfold mapEquiv
  exact Bool.and_comm _ _

/-- C8: the service create-or-update step writes back only labels,
annotations, selector and ports — name, namespace, type and the
cluster-assigned IP stay those of the stored Service — and it issues the
update store call exactly when CopyServiceFields detected a change, in which
case the merged object really differs observably from the stored one in one
of those four fields. -/
theorem copyServiceFields_spec (fromSvc toSvc : Service) :
    ((CopyServiceFields fromSvc toSvc).1.clusterIP = toSvc.clusterIP) ∧
    ((CopyServiceFields fromSvc toSvc).1.name = toSvc.name) ∧
    ((CopyServiceFields fromSvc toSvc).1.nspace = toSvc.nspace) ∧
    ((CopyServiceFields fromSvc toSvc).1.svcType = toSvc.svcType) ∧
    ((CopyServiceFields fromSvc toSvc).2 = false →
       serviceReconcileStep (some toSvc) fromSvc = []) ∧
    ((CopyServiceFields fromSvc toSvc).2 = true →
       serviceReconcileStep (some toSvc) fromSvc
         = [SvcMutation.update (CopyServiceFields fromSvc toSvc).1] ∧
       (mapEquiv (CopyServiceFields fromSvc toSvc).1.labels toSvc.labels = false ∨
        mapEquiv (CopyServiceFields fromSvc toSvc).1.annotations toSvc.annotations = false ∨
        mapEquiv (CopyServiceFields fromSvc toSvc).1.selector toSvc.selector = false ∨
        (CopyServiceFields fromSvc toSvc).1.ports ≠ toSvc.ports)) := by
  refine ⟨rfl, rfl, rfl, rfl, ?_, ?_⟩
  · intro h
    simp [serviceReconcileStep, h]
  · intro h
    refine ⟨by simp [serviceReconcileStep, h], ?_⟩
    have hor := h
    simp only [CopyServiceFields, Bool.or_eq_true] at hor
    rcases hor with ((h1 | h2) | h3) | h4
    · rcases List.any_eq_true.mp h1 with ⟨kv, hmem, hkv⟩
      have hkv2 : (!(goIndex fromSvc.labels kv.1 == kv.2)) = true := hkv
      have hne : goIndex fromSvc.labels kv.1 ≠ kv.2 := by
        intro he
        rw [he] at hkv2
        simp at hkv2
      exact Or.inl (mapEquiv_false_of_goIndex fromSvc.labels toSvc.labels kv hmem hne)
    · rcases List.any_eq_true.mp h2 with ⟨kv, hmem, hkv⟩
      have hkv2 : (!(goIndex fromSvc.annotations kv.1 == kv.2)) = true := hkv
      have hne : goIndex fromSvc.annotations kv.1 ≠ kv.2 := by
        intro he
        rw [he] at hkv2
        simp at hkv2
      exact Or.inr (Or.inl
        (mapEquiv_false_of_goIndex fromSvc.annotations toSvc.annotations kv hmem hne))
    · refine Or.inr (Or.inr (Or.inl ?_))
      have h3f : mapEquiv toSvc.selector fromSvc.selector = false := by
        cases hmE : mapEquiv toSvc.selector fromSvc.selector
        · rfl
        · rw [hmE] at h3
          simp at h3
      rw [show (CopyServiceFields fromSvc toSvc).1.selector = fromSvc.selector from rfl,
        mapEquiv_comm]
      exact h3f
    · refine Or.inr (Or.inr (Or.inr ?_))
      intro he
      rw [show (CopyServiceFields fromSvc toSvc).1.ports = fromSvc.ports from rfl] at he
      rw [← he] at h4
      simp at h4

/-- C8 witness: a label change on the stored Service triggers exactly one
update that keeps the cluster IP, at concrete services. -/
theorem copyServiceFields_spec_witness :
    serviceReconcileStep (some svcFound) svcDesired
      = [SvcMutation.update (CopyServiceFields svcDesired svcFound).1] ∧
    (CopyServiceFields svcDesired svcFound).1.clusterIP = svcFound.clusterIP ∧
    (mapEquiv (CopyServiceFields svcDesired svcFound).1.labels svcFound.labels = false ∨
     mapEquiv (CopyServiceFields svcDesired svcFound).1.annotations svcFound.annotations = false ∨
     mapEquiv (CopyServiceFields svcDesired svcFound).1.selector svcFound.selector = false ∨
     (CopyServiceFields svcDesired svcFound).1.ports ≠ svcFound.ports) := by
  have h := copyServiceFields_spec svcDesired svcFound
  have h6 := h.2.2.2.2.2 (by decide)
  exact ⟨h6.1, h.1, h6.2⟩

lemma goAtoi_eq_zero_of_syntaxErr (s : String) (h : atoiSyntaxOk s = false) : goAtoi s = 0 := by
  simp only [goAtoi]
  by_cases hempty : atoiDigits s = []
  · rw [if_pos (Or.inl hempty)]
  · have hdig : (atoiDigits s).all Char.isDigit = false := by
      cases hall : (atoiDigits s).all Char.isDigit
      · rfl
      · exfalso
        simp [atoiSyntaxOk, hempty, hall] at h
    rw [if_pos (Or.inr (by simp [hdig]))]

/-- C10 (amended): generateService is total on malformed port values — the
Atoi error is discarded and a port entry is still emitted for every matching
env entry of container 0. When the value is not a syntactically valid
decimal integer the entry carries Port and TargetPort 0; a syntactically
valid but out-of-range value is instead clamped to int64 and truncated to
int32 (yielding a non-zero port such as -1). -/
theorem generateService_malformed_port_zero (inst : Kernel) (pod : Pod) (e : EnvVar)
    (envName portName : String)
    (hpair : (envName, portName) ∈
      [("SHELL_PORT", "shell-port"), ("IOPUB_PORT", "iopub-port"),
       ("STDIN_PORT", "stdin-port"), ("HB_PORT", "hb-port"),
       ("CONTROL_PORT", "control-port")])
    (hmem : e ∈ container0Env pod) (hname : e.name = envName)
    (hbad : atoiSyntaxOk e.value = false) :
    ({ name := portName, port := 0, protocol := "TCP", targetPort := 0 } : ServicePort)
      ∈ (generateService inst pod).ports := by
  have hz : goAtoi e.value = 0 := goAtoi_eq_zero_of_syntaxErr _ hbad
  have hmem2 :
      (ServicePort.mk portName (toInt32 (goAtoi e.value)) "TCP" (toInt32 (goAtoi e.value)))
        ∈ addServicePort (container0Env pod) envName portName :=
    List.mem_filterMap.mpr ⟨e, hmem, by simp [hname, addServicePort]⟩
  rw [hz] at hmem2
  have h32 : toInt32 0 = 0 := by decide
  rw [h32] at hmem2
  simp only [List.mem_cons, List.mem_singleton, List.not_mem_nil, or_false,
    Prod.mk.injEq] at hpair
  rcases hpair with ⟨ha, hb⟩ | ⟨ha, hb⟩ | ⟨ha, hb⟩ | ⟨ha, hb⟩ | ⟨ha, hb⟩ <;>
    subst ha <;> subst hb <;> simp only [generateService, List.mem_append] <;>
    simp [hmem2]

/-- C10 counterexample to the claim as stated: the out-of-int64-range value
"9223372036854775808" is not parseable by Atoi, yet the emitted port entry
carries -1, not 0 (ErrRange clamping plus int32 truncation). -/
theorem generateService_range_counterexample :
    (generateService kernelC4 podC10).ports
      = [{ name := "shell-port", port := -1, protocol := "TCP", targetPort := -1 }] ∧
    ¬ (generateService kernelC4 podC10).ports
      = [{ name := "shell-port", port := 0, protocol := "TCP", targetPort := 0 }] := by
  constructor
  · decide
  · decide

/-- C10 witness: a syntactically invalid value yields the zero port entry. -/
theorem generateService_malformed_port_zero_witness :
    ({ name := "shell-port", port := 0, protocol := "TCP", targetPort := 0 } : ServicePort)
      ∈ (generateService kernelC4 podC10s).ports :=
  generateService_malformed_port_zero kernelC4 podC10s ⟨"SHELL_PORT", "abc", none⟩
    "SHELL_PORT" "shell-port" (by decide) (by decide) rfl (by decide)

end JKC
